import Mathlib

/-!
Verification of the resilient TCP relay `remote-dump1090` (remote_dump1090.c)
against its natural-language specification.

The C program is shallowly embedded as pure Lean functions:

* `socket_connect` (C function `socket_connect`, lines 65-126) is modelled as a
  function of a `ConnectOracle` describing the environment's answers to each
  system call (how many `socket` calls fail before one succeeds, whether the
  two `setsockopt` calls succeed, what `gethostbyname2` returns, how many
  `connect` calls fail before one succeeds).  It produces the function result
  (`CResult`) together with the ordered trace of observable events (`CEvent`):
  system calls, warning logs, sleeps, error logs and process exit.

* `main_loop` (C function `main_loop`, lines 129-153) is modelled over a finite
  prefix of loop iterations, each described by an `Iter`: the value returned by
  `read` together with the bytes it deposited in `buf`, and the value returned
  by `write`.  The model emits the ordered trace of relay events (`REvent`) and
  threads the two connection generations (`RState`) so that "a side was
  reconnected" is visible as a generation increment.

* argument handling (C function `main`, lines 191-260) is modelled by
  `parseArgs` / `mainModel`, including the exact `strtoul(_, NULL, 10)`
  semantics used for `-s`/`-d` port values (`strtoul10`), and the implicit
  conversion of the `unsigned long` result to `int` (`ulToInt`, modelled as the
  usual two's-complement truncation).
-/

/-! ## Connector model (`socket_connect`) -/

/-- Observable events of one `socket_connect` call.  `sockFailEv`/`sockOkEv`
are `socket(2)` calls, `warnEv` is an `xlog(LOG_WARNING, ...)` line, `sleepEv`
is `sleep(RETRY_SLEEP)`, `setRcvEv`/`setSndEv` are the `SO_RCVTIMEO` and
`SO_SNDTIMEO` `setsockopt` calls on file descriptor `fd`, `dnsEv` is the
`gethostbyname2` lookup (`ok = false` when it returns `NULL`), `multiWarnEv`
is the warning for a host with several IPv4 addresses, `connEv` is a
`connect(2)` call on `fd` towards `addr`, `errEv` is an `xlog(LOG_ERR, ...)`
line and `exitEv` is `exit(code)`. -/
inductive CEvent where
  | sockFailEv : CEvent
  | sockOkEv : Nat → CEvent
  | warnEv : CEvent
  | sleepEv : CEvent
  | setRcvEv : Nat → Bool → CEvent
  | setSndEv : Nat → Bool → CEvent
  | dnsEv : Bool → CEvent
  | multiWarnEv : CEvent
  | connEv : Nat → Nat → Bool → CEvent
  | errEv : CEvent
  | exitEv : Nat → CEvent
deriving DecidableEq

/-- Result of `socket_connect`: either the connected file descriptor is
returned to the caller, or the whole process exits with a status code. -/
inductive CResult where
  | ok : Nat → CResult
  | exited : Nat → CResult
deriving DecidableEq

/-- Environment answers for one `socket_connect` call: `socketFails` initial
`socket(2)` calls fail before one succeeds yielding descriptor `fdVal`;
`rcvOk`/`sndOk` tell whether the two `setsockopt` calls succeed; `dnsResult`
is `none` when `gethostbyname2` returns `NULL` and otherwise the IPv4 address
list (`h_addr_list`, addresses modelled as naturals); `connectFails` initial
`connect(2)` calls fail before one succeeds. -/
structure ConnectOracle where
  fdVal : Nat
  socketFails : Nat
  rcvOk : Bool
  sndOk : Bool
  dnsResult : Option (List Nat)
  connectFails : Nat

/-- The `do { fd = socket(...); if (fd < 0) { warn; sleep; } } while (fd < 0)`
loop (lines 69-77): `n` failing calls, each followed by one warning and one
sleep, then the succeeding call. -/
def sockLoop : Nat → Nat → List CEvent
  | 0, fd => [CEvent.sockOkEv fd]
  | n + 1, fd =>
      CEvent.sockFailEv :: CEvent.warnEv :: CEvent.sleepEv :: sockLoop n fd

/-- The `do { rv = connect(...); if (rv < 0) { warn; sleep; } } while (rv < 0)`
loop (lines 116-124) on descriptor `fd` towards address `a`: `n` failing
calls, each followed by one warning and one sleep, then the succeeding call. -/
def connLoop : Nat → Nat → Nat → List CEvent
  | 0, fd, a => [CEvent.connEv fd a true]
  | n + 1, fd, a =>
      CEvent.connEv fd a false :: CEvent.warnEv :: CEvent.sleepEv ::
        connLoop n fd a

/-- `socket_connect(host, port)` (lines 65-126), as a function of the
environment oracle.  Faithful control flow: socket-creation retry loop first,
then the two timeout `setsockopt` calls (each fatal on failure, `exit(1)`),
then `gethostbyname2` (fatal on `NULL` and on an empty address list,
`exit(1)`; one warning when the list has a second entry, first entry used),
then the connect retry loop on the same descriptor, then `return fd`. -/
def socket_connect (host : String) (port : Int) (o : ConnectOracle) :
    CResult × List CEvent :=
  let fd := o.fdVal
  let sockEvs := sockLoop o.socketFails fd
  if o.rcvOk = false then
    (CResult.exited 1,
      sockEvs ++ [CEvent.setRcvEv fd false, CEvent.errEv, CEvent.exitEv 1])
  else if o.sndOk = false then
    (CResult.exited 1,
      sockEvs ++ [CEvent.setRcvEv fd true, CEvent.setSndEv fd false,
        CEvent.errEv, CEvent.exitEv 1])
  else
    let base := sockEvs ++ [CEvent.setRcvEv fd true, CEvent.setSndEv fd true]
    match o.dnsResult with
    | none =>
        (CResult.exited 1,
          base ++ [CEvent.dnsEv false, CEvent.errEv, CEvent.exitEv 1])
    | some [] =>
        (CResult.exited 1,
          base ++ [CEvent.dnsEv true, CEvent.errEv, CEvent.exitEv 1])
    | some (a :: rest) =>
        (CResult.ok fd,
          base ++ [CEvent.dnsEv true]
            ++ (if rest = [] then [] else [CEvent.multiWarnEv])
            ++ connLoop o.connectFails fd a)

/-- Recognise a `connect(2)` call event. -/
def isConnEv : CEvent → Bool
  | CEvent.connEv _ _ _ => true
  | _ => false

/-- Recognise a `socket(2)` call event (failing or succeeding). -/
def isSockCreateEv : CEvent → Bool
  | CEvent.sockFailEv => true
  | CEvent.sockOkEv _ => true
  | _ => false

/-- Recognise a timeout-configuration (`setsockopt`) event. -/
def isSetEv : CEvent → Bool
  | CEvent.setRcvEv _ _ => true
  | CEvent.setSndEv _ _ => true
  | _ => false

/-- Recognise the DNS-resolution event. -/
def isDnsEv : CEvent → Bool
  | CEvent.dnsEv _ => true
  | _ => false

/-- Recognise a warning-log event from a retried failure. -/
def isWarnEv : CEvent → Bool
  | CEvent.warnEv => true
  | _ => false

/-- Recognise a `sleep(RETRY_SLEEP)` event. -/
def isSleepEv : CEvent → Bool
  | CEvent.sleepEv => true
  | _ => false

/-- Recognise the multiple-IPv4-address warning event. -/
def isMultiWarnEv : CEvent → Bool
  | CEvent.multiWarnEv => true
  | _ => false

/-! ## Relay-loop model (`main_loop`) -/

/-- The two sides of the relay. -/
inductive Side where
  | src : Side
  | dst : Side
deriving DecidableEq

/-- Observable events of the relay loop: a `socket_connect` call for one side,
a `close` of one side's descriptor, and a `write(dst, buf, rv)` call carrying
the bytes passed to it. -/
inductive REvent where
  | connectEv : Side → REvent
  | closeEv : Side → REvent
  | writeEv : List Nat → REvent
deriving DecidableEq

/-- Connection generations of the two sides: each successful `socket_connect`
for a side bumps that side's generation, so "this side was reconnected" is
visible as an increment and "this side was left untouched" as equality. -/
structure RState where
  srcGen : Nat
  dstGen : Nat
deriving DecidableEq

/-- Environment answers for one iteration of the `while (1)` loop:
`readRv` is the value returned by `read(src, buf, BUFFER_SIZE)`, `readData`
the bytes it deposited at the start of `buf` (meaningful when `0 < readRv`,
where `read`'s contract gives `readData.length = readRv.toNat ≤ 1024`), and
`writeRv` the value `write(dst, buf, readRv)` would return (consulted only
when the write is reached). -/
structure Iter where
  readRv : Int
  readData : List Nat
  writeRv : Int
deriving DecidableEq

/-- Well-formedness of an iteration oracle, from the `read(2)` contract:
the result never exceeds the requested `BUFFER_SIZE = 1024`, and on a
positive result exactly that many bytes were deposited in the buffer. -/
def Iter.wf (it : Iter) : Prop :=
  it.readRv ≤ 1024 ∧ (it.readRv ≤ 0 ∨ it.readData.length = it.readRv.toNat)

instance (it : Iter) : Decidable it.wf := by
  unfold Iter.wf
  infer_instance

/-- One iteration of the `while (1)` body (lines 136-148).  A zero or
negative read closes and reconnects the source and skips the write
(`continue`); otherwise `write(dst, buf, rv)` is called with exactly the
first `rv` bytes of the buffer, and a zero or negative write result closes
and reconnects the destination. -/
def loopBody (st : RState) (it : Iter) : RState × List REvent :=
  if it.readRv ≤ 0 then
    (⟨st.srcGen + 1, st.dstGen⟩,
      [REvent.closeEv Side.src, REvent.connectEv Side.src])
  else if it.writeRv ≤ 0 then
    (⟨st.srcGen, st.dstGen + 1⟩,
      [REvent.writeEv (it.readData.take it.readRv.toNat),
        REvent.closeEv Side.dst, REvent.connectEv Side.dst])
  else
    (st, [REvent.writeEv (it.readData.take it.readRv.toNat)])

/-- Run the relay loop body over a finite prefix of iterations, accumulating
the event trace. -/
def runLoop : RState → List Iter → RState × List REvent
  | st, [] => (st, [])
  | st, it :: rest =>
      ((runLoop (loopBody st it).1 rest).1,
        (loopBody st it).2 ++ (runLoop (loopBody st it).1 rest).2)

/-- `main_loop(src_host, src_port, dst_host, dst_port)` (lines 129-153),
observed over a finite prefix of loop iterations: first
`dst = socket_connect(dst_host, dst_port)`, then
`src = socket_connect(src_host, src_port)`, then the loop. -/
def main_loop (tr : List Iter) : RState × List REvent :=
  ((runLoop ⟨0, 0⟩ tr).1,
    REvent.connectEv Side.dst :: REvent.connectEv Side.src ::
      (runLoop ⟨0, 0⟩ tr).2)

/-- The chunks passed to `write(dst, ...)`, in trace order. -/
def writtenChunks : List REvent → List (List Nat)
  | [] => []
  | REvent.writeEv c :: rest => c :: writtenChunks rest
  | _ :: rest => writtenChunks rest

/-! ## Argument handling model (`main`) -/

/-- C `isspace` in the default locale, as consulted by `strtoul`. -/
def isSpaceC (c : Char) : Bool :=
  c = ' ' || c = '\t' || c = '\n' || c = '\x0b' || c = '\x0c' || c = '\r'

/-- C `isdigit`. -/
def isDigitC (c : Char) : Bool :=
  '0' ≤ c && c ≤ '9'

/-- Value of a decimal digit string, most significant digit first. -/
def digitsVal : List Char → Nat → Nat
  | [], acc => acc
  | c :: cs, acc => digitsVal cs (acc * 10 + (c.toNat - '0'.toNat))

/-- `ULONG_MAX` on the usual 64-bit `unsigned long`. -/
def ULONG_MAX : Nat := 2 ^ 64 - 1

/-- `strtoul`'s optional single sign character: returns the negation flag and
the remaining characters. -/
def afterSign : List Char → Bool × List Char
  | '-' :: t => (true, t)
  | '+' :: t => (false, t)
  | cs => (false, cs)

/-- Sign flag and post-sign characters of `strtoul(s, NULL, 10)` after the
initial whitespace skip. -/
def strtoulBody (s : String) : Bool × List Char :=
  afterSign (s.data.dropWhile isSpaceC)

/-- The (possibly empty) run of decimal digits `strtoul(s, NULL, 10)`
consumes. -/
def strtoulDigits (s : String) : List Char :=
  (strtoulBody s).2.takeWhile isDigitC

/-- `strtoul(s, NULL, 10)`: skip whitespace, consume one optional sign and a
run of decimal digits (an empty run yields the value 0).  When the digit
value overflows the `unsigned long` range, `ULONG_MAX` is returned
regardless of the sign (the `ERANGE` case); otherwise a `-` sign negates
the value in unsigned arithmetic.  No error information is produced (the
`endptr` argument is `NULL` in the program and `errno` is never
inspected). -/
def strtoul10 (s : String) : Nat :=
  let raw := digitsVal (strtoulDigits s) 0
  if ULONG_MAX < raw then ULONG_MAX
  else if (strtoulBody s).1 then (2 ^ 64 - raw) % 2 ^ 64 else raw

/-- Conversion of the `unsigned long` result to the `int` port variables,
modelled as two's-complement truncation to 32 bits (the behaviour of the
compilers this program targets; the C standard leaves it
implementation-defined). -/
def ulToInt (n : Nat) : Int :=
  if n % 2 ^ 32 < 2 ^ 31 then ((n % 2 ^ 32 : Nat) : Int)
  else ((n % 2 ^ 32 : Nat) : Int) - 2 ^ 32

/-- Classification of one `argv` entry by the option loop (lines 208-243):
`none` for a positional argument (`argv[i][0] != '-'`, including the empty
string), `some none` for the bare string consisting of `'-'` alone (whose
second character is the terminating NUL, hitting the `switch` default), and
`some (some c)` for an option with flag character `c = argv[i][1]`. -/
def argKind (a : String) : Option (Option Char) :=
  match a.data with
  | '-' :: [] => some none
  | '-' :: c :: _ => some (some c)
  | _ => none

/-- The characters of an attached option value `argv[i] + 2` (empty exactly
when `argv[i][2] == '\0'`). -/
def attachedVal (a : String) : List Char :=
  a.data.drop 2

/-- Outcome of `main`'s argument handling: print help and return 0; print the
version and return 0; print the usage text, log one error and return 2; or
call `main_loop` with the four parameters and the syslog flag (which never
returns normally).  `crashOut` marks the undefined behaviour of `-s`/`-d` as
the last argument, where the code reads `argv[argc]` (`NULL`) and passes it
to `strtoul`. -/
inductive MainOutcome where
  | helpOut : MainOutcome
  | versionOut : MainOutcome
  | usageError : MainOutcome
  | runLoopOut : String → Int → String → Int → Bool → MainOutcome
  | crashOut : MainOutcome
deriving DecidableEq

/-- Output events of `main`'s argument handling. -/
inductive MainEv where
  | printHelpEv : MainEv
  | printVersionEv : MainEv
  | printUsageEv : MainEv
  | logErrEv : MainEv
deriving DecidableEq

/-- The argument loop and the two required-host checks of `main`
(lines 208-256), over `argv[1..]`, processed one `argv` entry per step.  The
`Option Char` parameter is the pending port flag: `-s`/`-d` with no attached
value executes `strtoul(argv[++i], NULL, 10)`, i.e. it consumes the next
entry unconditionally as the port value — here modelled by entering the
pending state and letting the next step consume its entry without
inspecting it.  Running out of arguments while a port flag is pending is
the `NULL`-pointer `strtoul` call (`crashOut`).  Remaining state: the
source and destination hosts seen so far, the current port values, and the
syslog flag.  Faithful details: `-h`/`-v` act immediately wherever they
occur; `-l` sets the flag and continues; any other option character prints
usage, logs one error and exits with status 2; a third and later positional
argument is silently ignored; after the loop a missing source host, then a
missing destination host, prints usage, logs one error and exits with
status 2. -/
def parseArgs : List String → Option Char → Option String → Option String →
    Int → Int → Bool → MainOutcome × List MainEv
  | [], some _, _, _, _, _, _ => (MainOutcome.crashOut, [])
  | [], none, srcH, dstH, sp, dp, l =>
      match srcH with
      | none => (MainOutcome.usageError, [MainEv.printUsageEv, MainEv.logErrEv])
      | some s =>
          match dstH with
          | none =>
              (MainOutcome.usageError, [MainEv.printUsageEv, MainEv.logErrEv])
          | some d => (MainOutcome.runLoopOut s sp d dp l, [])
  | p :: rest, some f, srcH, dstH, sp, dp, l =>
      if f = 's' then
        parseArgs rest none srcH dstH (ulToInt (strtoul10 p)) dp l
      else
        parseArgs rest none srcH dstH sp (ulToInt (strtoul10 p)) l
  | a :: rest, none, srcH, dstH, sp, dp, l =>
      match argKind a with
      | none =>
          match srcH with
          | none => parseArgs rest none (some a) dstH sp dp l
          | some _ =>
              match dstH with
              | none => parseArgs rest none srcH (some a) sp dp l
              | some _ => parseArgs rest none srcH dstH sp dp l
      | some none =>
          (MainOutcome.usageError, [MainEv.printUsageEv, MainEv.logErrEv])
      | some (some c) =>
          if c = 'h' then (MainOutcome.helpOut, [MainEv.printHelpEv])
          else if c = 'v' then
            (MainOutcome.versionOut, [MainEv.printVersionEv])
          else if c = 'l' then parseArgs rest none srcH dstH sp dp true
          else if c = 's' then
            if attachedVal a = [] then
              parseArgs rest (some 's') srcH dstH sp dp l
            else
              parseArgs rest none srcH dstH
                (ulToInt (strtoul10 (String.mk (attachedVal a)))) dp l
          else if c = 'd' then
            if attachedVal a = [] then
              parseArgs rest (some 'd') srcH dstH sp dp l
            else
              parseArgs rest none srcH dstH sp
                (ulToInt (strtoul10 (String.mk (attachedVal a)))) l
          else
            (MainOutcome.usageError, [MainEv.printUsageEv, MainEv.logErrEv])

/-- `main`'s argument handling on `argv[1..]`, with the initial state of
lines 198-206: no pending flag, no hosts, source port 30002, destination
port 30001, syslog off. -/
def mainModel (args : List String) : MainOutcome × List MainEv :=
  parseArgs args none none none 30002 30001 false

/-- The process exit status an outcome leads to: `-h`/`-v` return 0, argument
errors return 2, and neither `main_loop` (infinite loop) nor the `NULL`
dereference returns normally. -/
def exitCodeOf : MainOutcome → Option Nat
  | MainOutcome.helpOut => some 0
  | MainOutcome.versionOut => some 0
  | MainOutcome.usageError => some 2
  | MainOutcome.runLoopOut _ _ _ _ _ => none
  | MainOutcome.crashOut => none

/-- Whether the outcome enters the relay loop (`main_loop` is called). -/
def entersRelay : MainOutcome → Bool
  | MainOutcome.runLoopOut _ _ _ _ _ => true
  | _ => false

/-! ## Relay-loop theorems -/

/-- Claim C1: in the relay loop, whenever a read from the source connection
returns a zero or negative result, the source connection is closed and
re-established via the Connector, the write step is skipped for that
iteration, and the destination connection is left untouched (not closed, not
reconnected, not written to) during that iteration. -/
theorem read_failure_touches_only_source (st : RState) (it : Iter)
    (h : it.readRv ≤ 0) :
    (loopBody st it).1.dstGen = st.dstGen ∧
    (loopBody st it).1.srcGen = st.srcGen + 1 ∧
    (loopBody st it).2 = [REvent.closeEv Side.src, REvent.connectEv Side.src] ∧
    (∀ c, REvent.writeEv c ∉ (loopBody st it).2) ∧
    REvent.closeEv Side.dst ∉ (loopBody st it).2 ∧
    REvent.connectEv Side.dst ∉ (loopBody st it).2 := by
  unfold loopBody
  rw [if_pos h]
  refine ⟨rfl, rfl, rfl, ?_, ?_, ?_⟩ <;> simp

/-- Witness for C1: a concrete failed read (result `-1`) at generations
`(5, 7)` closes and reconnects only the source. -/
theorem read_failure_touches_only_source_witness :
    (loopBody ⟨5, 7⟩ ⟨-1, [], 0⟩).2 =
      [REvent.closeEv Side.src, REvent.connectEv Side.src] :=
  (read_failure_touches_only_source ⟨5, 7⟩ ⟨-1, [], 0⟩ (by decide)).2.2.1

/-- Claim C2: in the relay loop, whenever a write to the destination
connection returns a zero or negative result, the destination connection is
closed and re-established via the Connector, the bytes of the current chunk
are discarded (the chunk is passed to exactly one write call, never
retried), and the source connection is left untouched during that
iteration. -/
theorem write_failure_touches_only_dest (st : RState) (it : Iter)
    (h1 : 0 < it.readRv) (h2 : it.writeRv ≤ 0) :
    (loopBody st it).1.srcGen = st.srcGen ∧
    (loopBody st it).1.dstGen = st.dstGen + 1 ∧
    (loopBody st it).2 =
      [REvent.writeEv (it.readData.take it.readRv.toNat),
        REvent.closeEv Side.dst, REvent.connectEv Side.dst] ∧
    writtenChunks (loopBody st it).2 = [it.readData.take it.readRv.toNat] ∧
    REvent.closeEv Side.src ∉ (loopBody st it).2 ∧
    REvent.connectEv Side.src ∉ (loopBody st it).2 := by
  unfold loopBody
  rw [if_neg (by omega), if_pos h2]
  refine ⟨rfl, rfl, rfl, rfl, ?_, ?_⟩ <;> simp

/-- Witness for C2: a concrete read of two bytes followed by a failed write
(result `0`) closes and reconnects only the destination, after exactly one
write call carrying the two bytes. -/
theorem write_failure_touches_only_dest_witness :
    (loopBody ⟨5, 7⟩ ⟨2, [9, 8], 0⟩).2 =
      [REvent.writeEv [9, 8], REvent.closeEv Side.dst,
        REvent.connectEv Side.dst] :=
  (write_failure_touches_only_dest ⟨5, 7⟩ ⟨2, [9, 8], 0⟩ (by decide)
    (by decide)).2.2.1

/-- Claim C7: on entry to the relay loop, `socket_connect` is called for the
destination endpoint first and for the source endpoint second. -/
theorem dest_connected_before_source (tr : List Iter) :
    (main_loop tr).2.take 2 =
      [REvent.connectEv Side.dst, REvent.connectEv Side.src] := rfl

/-- `writtenChunks` distributes over trace concatenation. -/
theorem writtenChunks_append (l1 l2 : List REvent) :
    writtenChunks (l1 ++ l2) = writtenChunks l1 ++ writtenChunks l2 := by
  induction l1 with
  | nil => rfl
  | cons e rest ih => cases e <;> simp [writtenChunks, ih]

/-- Over any run of the loop body, the chunks passed to `write` are exactly
the byte sequences of the successful reads, in order. -/
theorem runLoop_writtenChunks (tr : List Iter) :
    ∀ st : RState, (∀ it ∈ tr, it.wf) →
      writtenChunks (runLoop st tr).2 =
        (tr.filter fun it => decide (0 < it.readRv)).map
          (fun it => it.readData) := by
  induction tr with
  | nil => intro st _; rfl
  | cons it rest ih =>
      intro st h
      have hwf := h it (List.mem_cons_self _ _)
      have hrest : ∀ x ∈ rest, x.wf := fun x hx => h x (List.mem_cons_of_mem _ hx)
      by_cases hr : it.readRv ≤ 0
      · have hneg : ¬(0 < it.readRv) := by omega
        simp [runLoop, loopBody, hr, writtenChunks_append, writtenChunks,
          ih _ hrest, List.filter_cons, hneg]
      · have hpos : 0 < it.readRv := by omega
        have hlen : it.readData.length = it.readRv.toNat := by
          rcases hwf.2 with h' | h'
          · omega
          · exact h'
        have htake : it.readData.take it.readRv.toNat = it.readData := by
          rw [← hlen]
          exact List.take_length _
        by_cases hw : it.writeRv ≤ 0 <;>
          simp [runLoop, loopBody, hr, hw, writtenChunks_append, writtenChunks,
            ih _ hrest, List.filter_cons, hpos, htake]

/-- Claim C6: for every successful relay-loop iteration (read result strictly
positive), exactly the bytes returned by the read — at most one chunk of
1024 bytes — are passed to the write on the destination connection, and
across iterations the chunks appear in the same relative order as the reads
that produced them, with no reordering, merging, duplication or loss. -/
theorem relay_chunks_in_order (tr : List Iter) (h : ∀ it ∈ tr, it.wf) :
    writtenChunks (main_loop tr).2 =
      (tr.filter fun it => decide (0 < it.readRv)).map
        (fun it => it.readData) ∧
    ∀ c ∈ writtenChunks (main_loop tr).2, c.length ≤ 1024 := by
  have hmain : writtenChunks (main_loop tr).2 =
      (tr.filter fun it => decide (0 < it.readRv)).map
        (fun it => it.readData) := by
    have := runLoop_writtenChunks tr ⟨0, 0⟩ h
    simpa [main_loop, writtenChunks] using this
  refine ⟨hmain, ?_⟩
  intro c hc
  rw [hmain] at hc
  rcases List.mem_map.mp hc with ⟨it, hit, rfl⟩
  have hit' := List.mem_filter.mp hit
  obtain ⟨hle, hor⟩ := h it hit'.1
  have hpos : 0 < it.readRv := by simpa using hit'.2
  rcases hor with h' | h'
  · omega
  · rw [h']
    omega

/-- Witness for C6: a concrete three-iteration trace (successful read of 3
bytes, failed read, successful read of 2 bytes with failed write) writes
exactly the two successfully-read chunks in order. -/
theorem relay_chunks_in_order_witness :
    writtenChunks
        (main_loop [⟨3, [1, 2, 3], 1⟩, ⟨-1, [], 0⟩, ⟨2, [4, 5], -1⟩]).2 =
      (([⟨3, [1, 2, 3], 1⟩, ⟨-1, [], 0⟩, ⟨2, [4, 5], -1⟩] : List Iter).filter
          fun it => decide (0 < it.readRv)).map (fun it => it.readData) :=
  (relay_chunks_in_order [⟨3, [1, 2, 3], 1⟩, ⟨-1, [], 0⟩, ⟨2, [4, 5], -1⟩]
    (by decide)).1

/-! ## Connector lemmas -/

/-- The socket-creation loop emits no timeout, DNS, connect or multi-address
events. -/
theorem sockLoop_only_sock_events (n fd : Nat) :
    ∀ e ∈ sockLoop n fd, isSetEv e = false ∧ isDnsEv e = false ∧
      isConnEv e = false ∧ isMultiWarnEv e = false := by
  induction n with
  | zero =>
      intro e he
      simp [sockLoop] at he
      subst he
      exact ⟨rfl, rfl, rfl, rfl⟩
  | succ n ih =>
      intro e he
      simp only [sockLoop, List.mem_cons] at he
      rcases he with rfl | rfl | rfl | he
      · exact ⟨rfl, rfl, rfl, rfl⟩
      · exact ⟨rfl, rfl, rfl, rfl⟩
      · exact ⟨rfl, rfl, rfl, rfl⟩
      · exact ih e he

/-- The socket-creation loop ends with a successful `socket(2)` call for the
returned descriptor. -/
theorem sockLoop_mem_ok (n fd : Nat) : CEvent.sockOkEv fd ∈ sockLoop n fd := by
  induction n with
  | zero => simp [sockLoop]
  | succ n ih => simp [sockLoop, ih]

/-- Warning count of the socket-creation loop: one per failed `socket(2)`
call. -/
theorem sockLoop_countP_warn (n fd : Nat) :
    List.countP isWarnEv (sockLoop n fd) = n := by
  induction n with
  | zero => rfl
  | succ n ih => simp [sockLoop, List.countP_cons, isWarnEv, ih]

/-- Sleep count of the socket-creation loop: one per failed `socket(2)`
call. -/
theorem sockLoop_countP_sleep (n fd : Nat) :
    List.countP isSleepEv (sockLoop n fd) = n := by
  induction n with
  | zero => rfl
  | succ n ih => simp [sockLoop, List.countP_cons, isSleepEv, ih]

/-- The socket-creation loop contains no `connect(2)` call. -/
theorem sockLoop_countP_conn (n fd : Nat) :
    List.countP isConnEv (sockLoop n fd) = 0 := by
  induction n with
  | zero => rfl
  | succ n ih => simp [sockLoop, List.countP_cons, isConnEv, ih]

/-- The socket-creation loop contains no multi-address warning. -/
theorem sockLoop_countP_multi (n fd : Nat) :
    List.countP isMultiWarnEv (sockLoop n fd) = 0 := by
  induction n with
  | zero => rfl
  | succ n ih => simp [sockLoop, List.countP_cons, isMultiWarnEv, ih]

/-- `connect(2)` call count of the connect loop: the failures plus the final
success. -/
theorem connLoop_countP_conn (n fd a : Nat) :
    List.countP isConnEv (connLoop n fd a) = n + 1 := by
  induction n with
  | zero => rfl
  | succ n ih => simp [connLoop, List.countP_cons, isConnEv, ih]

/-- Warning count of the connect loop: one per failed `connect(2)` call. -/
theorem connLoop_countP_warn (n fd a : Nat) :
    List.countP isWarnEv (connLoop n fd a) = n := by
  induction n with
  | zero => rfl
  | succ n ih => simp [connLoop, List.countP_cons, isWarnEv, ih]

/-- Sleep count of the connect loop: one per failed `connect(2)` call. -/
theorem connLoop_countP_sleep (n fd a : Nat) :
    List.countP isSleepEv (connLoop n fd a) = n := by
  induction n with
  | zero => rfl
  | succ n ih => simp [connLoop, List.countP_cons, isSleepEv, ih]

/-- The connect loop contains no multi-address warning. -/
theorem connLoop_countP_multi (n fd a : Nat) :
    List.countP isMultiWarnEv (connLoop n fd a) = 0 := by
  induction n with
  | zero => rfl
  | succ n ih => simp [connLoop, List.countP_cons, isMultiWarnEv, ih]

/-- Every `connect(2)` call of the connect loop uses the given descriptor and
the given address. -/
theorem connLoop_conn_mem (n fd a : Nat) :
    ∀ fd' a' ok, CEvent.connEv fd' a' ok ∈ connLoop n fd a →
      fd' = fd ∧ a' = a := by
  induction n with
  | zero =>
      intro fd' a' ok h
      simp [connLoop] at h
      exact ⟨h.1, h.2.1⟩
  | succ n ih =>
      intro fd' a' ok h
      simp only [connLoop, List.mem_cons] at h
      rcases h with h | h | h | h
      · rw [CEvent.connEv.injEq] at h
        exact ⟨h.1, h.2.1⟩
      · exact absurd h (by simp)
      · exact absurd h (by simp)
      · exact ih fd' a' ok h

/-- The connect loop ends with the successful `connect(2)` call. -/
theorem connLoop_concat (n fd a : Nat) :
    ∃ l, connLoop n fd a = l ++ [CEvent.connEv fd a true] := by
  induction n with
  | zero => exact ⟨[], rfl⟩
  | succ n ih =>
      obtain ⟨l, hl⟩ := ih
      exact ⟨CEvent.connEv fd a false :: CEvent.warnEv :: CEvent.sleepEv :: l,
        by simp [connLoop, hl]⟩

/-- The connect loop emits no socket-creation, timeout or DNS events. -/
theorem connLoop_only_conn_events (n fd a : Nat) :
    ∀ e ∈ connLoop n fd a, isSockCreateEv e = false ∧ isSetEv e = false ∧
      isDnsEv e = false := by
  induction n with
  | zero =>
      intro e he
      simp [connLoop] at he
      subst he
      exact ⟨rfl, rfl, rfl⟩
  | succ n ih =>
      intro e he
      simp only [connLoop, List.mem_cons] at he
      rcases he with rfl | rfl | rfl | he
      · exact ⟨rfl, rfl, rfl⟩
      · exact ⟨rfl, rfl, rfl⟩
      · exact ⟨rfl, rfl, rfl⟩
      · exact ih e he

/-- Shape of a `socket_connect` run whose timeout configuration succeeds and
whose DNS lookup yields the address list `a :: rest`. -/
theorem socket_connect_success_shape (host : String) (port : Int)
    (o : ConnectOracle) (a : Nat) (rest : List Nat)
    (hrcv : o.rcvOk = true) (hsnd : o.sndOk = true)
    (hdns : o.dnsResult = some (a :: rest)) :
    socket_connect host port o =
      (CResult.ok o.fdVal,
        sockLoop o.socketFails o.fdVal ++
          [CEvent.setRcvEv o.fdVal true, CEvent.setSndEv o.fdVal true,
            CEvent.dnsEv true] ++
          (if rest = [] then [] else [CEvent.multiWarnEv]) ++
          connLoop o.connectFails o.fdVal a) := by
  simp [socket_connect, hrcv, hsnd, hdns]

/-- Every `connect(2)` call of a successful `socket_connect` run uses the
descriptor created by its socket phase and the first DNS address. -/
theorem socket_connect_conn_mem (host : String) (port : Int)
    (o : ConnectOracle) (a : Nat) (rest : List Nat)
    (hrcv : o.rcvOk = true) (hsnd : o.sndOk = true)
    (hdns : o.dnsResult = some (a :: rest)) :
    ∀ fd' a' ok, CEvent.connEv fd' a' ok ∈ (socket_connect host port o).2 →
      fd' = o.fdVal ∧ a' = a := by
  intro fd' a' ok h
  rw [socket_connect_success_shape host port o a rest hrcv hsnd hdns] at h
  rcases List.mem_append.mp h with h1 | h1
  · rcases List.mem_append.mp h1 with h2 | h2
    · rcases List.mem_append.mp h2 with h3 | h3
      · have := (sockLoop_only_sock_events o.socketFails o.fdVal _ h3).2.2.1
        simp [isConnEv] at this
      · simp at h3
    · by_cases hrest : rest = [] <;> simp [hrest] at h2
  · exact connLoop_conn_mem o.connectFails o.fdVal a fd' a' ok h1

/-! ## Connector theorems -/

/-- Claim C3 counterexample: in a concrete fully-successful `socket_connect`
run, the first event is the socket creation (position 0), the timeout
configuration comes next (position 1) and the DNS lookup only happens at
position 3 — so DNS resolution does NOT precede socket creation or timeout
configuration, contradicting the claimed order. -/
theorem socket_connect_dns_not_first :
    List.findIdx isSockCreateEv
        (socket_connect "src" 30002 ⟨3, 0, true, true, some [7], 0⟩).2 = 0 ∧
    List.findIdx isSetEv
        (socket_connect "src" 30002 ⟨3, 0, true, true, some [7], 0⟩).2 = 1 ∧
    List.findIdx isDnsEv
        (socket_connect "src" 30002 ⟨3, 0, true, true, some [7], 0⟩).2 = 3 ∧
    ¬ List.findIdx isDnsEv
          (socket_connect "src" 30002 ⟨3, 0, true, true, some [7], 0⟩).2 <
        List.findIdx isSockCreateEv
          (socket_connect "src" 30002 ⟨3, 0, true, true, some [7], 0⟩).2 ∧
    ¬ List.findIdx isDnsEv
          (socket_connect "src" 30002 ⟨3, 0, true, true, some [7], 0⟩).2 <
        List.findIdx isSetEv
          (socket_connect "src" 30002 ⟨3, 0, true, true, some [7], 0⟩).2 := by
  decide

/-- Claim C3 (amended): `socket_connect` performs its steps in this order:
first create the transport-layer socket (retried on failure), then configure
the read and write timeouts (fatal on failure), then resolve the host name
to an IPv4 address (fatal on failure), then attempt the TCP connect (retried
on failure); in particular DNS resolution happens after socket creation and
after timeout configuration.  Stated on any run whose timeout configuration
succeeds and whose DNS lookup yields at least one address: the trace splits
into a socket-creation phase containing the successful `socket(2)` call and
nothing of the later phases, then the two timeout calls, then the DNS
lookup (and possibly the multi-address warning), then a connect phase made
only of connect-loop events and ending in the successful `connect(2)`
call. -/
theorem socket_connect_phase_order (host : String) (port : Int)
    (o : ConnectOracle) (a : Nat) (rest : List Nat)
    (hrcv : o.rcvOk = true) (hsnd : o.sndOk = true)
    (hdns : o.dnsResult = some (a :: rest)) :
    ∃ evs1 evs2,
      (socket_connect host port o).2 =
        evs1 ++ [CEvent.setRcvEv o.fdVal true, CEvent.setSndEv o.fdVal true,
          CEvent.dnsEv true] ++
          (if rest = [] then [] else [CEvent.multiWarnEv]) ++ evs2 ∧
      CEvent.sockOkEv o.fdVal ∈ evs1 ∧
      (∀ e ∈ evs1, isSetEv e = false ∧ isDnsEv e = false ∧
        isConnEv e = false) ∧
      (∀ e ∈ evs2, isSockCreateEv e = false ∧ isSetEv e = false ∧
        isDnsEv e = false) ∧
      ∃ evs3, evs2 = evs3 ++ [CEvent.connEv o.fdVal a true] := by
  refine ⟨sockLoop o.socketFails o.fdVal, connLoop o.connectFails o.fdVal a,
    ?_, sockLoop_mem_ok _ _,
    fun e he => ⟨(sockLoop_only_sock_events _ _ e he).1,
      (sockLoop_only_sock_events _ _ e he).2.1,
      (sockLoop_only_sock_events _ _ e he).2.2.1⟩,
    connLoop_only_conn_events _ _ _,
    connLoop_concat _ _ _⟩
  rw [socket_connect_success_shape host port o a rest hrcv hsnd hdns]

/-- Witness for the amended C3: a concrete run with one socket failure and
two connect failures decomposes into the stated phases. -/
theorem socket_connect_phase_order_witness :
    ∃ evs1 evs2,
      (socket_connect "src" 30002 ⟨3, 1, true, true, some [7], 2⟩).2 =
        evs1 ++ [CEvent.setRcvEv 3 true, CEvent.setSndEv 3 true,
          CEvent.dnsEv true] ++
          (if ([] : List Nat) = [] then [] else [CEvent.multiWarnEv]) ++
          evs2 ∧
      CEvent.sockOkEv 3 ∈ evs1 ∧
      (∀ e ∈ evs1, isSetEv e = false ∧ isDnsEv e = false ∧
        isConnEv e = false) ∧
      (∀ e ∈ evs2, isSockCreateEv e = false ∧ isSetEv e = false ∧
        isDnsEv e = false) ∧
      ∃ evs3, evs2 = evs3 ++ [CEvent.connEv 3 7 true] :=
  socket_connect_phase_order "src" 30002 ⟨3, 1, true, true, some [7], 2⟩ 7 []
    rfl rfl rfl

/-- Claim C4: `socket_connect` never returns a failure value to its caller:
for every sequence of transient failures (socket creation failures, connect
failures), each failure is logged at warning level and followed by a
retry-interval sleep, the connect retries all reuse the one created,
timeout-configured descriptor, and the function returns the connected
descriptor on the `(N+1)`-th connect attempt after `N` refusals. -/
theorem socket_connect_never_fails (host : String) (port : Int)
    (o : ConnectOracle) (a : Nat) (rest : List Nat)
    (hrcv : o.rcvOk = true) (hsnd : o.sndOk = true)
    (hdns : o.dnsResult = some (a :: rest)) :
    (socket_connect host port o).1 = CResult.ok o.fdVal ∧
    List.countP isConnEv (socket_connect host port o).2 =
      o.connectFails + 1 ∧
    (∀ fd' a' ok, CEvent.connEv fd' a' ok ∈ (socket_connect host port o).2 →
      fd' = o.fdVal ∧ a' = a) ∧
    CEvent.setRcvEv o.fdVal true ∈ (socket_connect host port o).2 ∧
    CEvent.setSndEv o.fdVal true ∈ (socket_connect host port o).2 ∧
    (∃ pre, (socket_connect host port o).2 =
      pre ++ [CEvent.connEv o.fdVal a true]) ∧
    List.countP isWarnEv (socket_connect host port o).2 =
      o.socketFails + o.connectFails ∧
    List.countP isSleepEv (socket_connect host port o).2 =
      o.socketFails + o.connectFails := by
  have hshape := socket_connect_success_shape host port o a rest hrcv hsnd hdns
  have hifW : ∀ p : CEvent → Bool, p CEvent.multiWarnEv = false →
      List.countP p (if rest = [] then [] else [CEvent.multiWarnEv]) = 0 := by
    intro p hp
    split <;> simp [List.countP_cons, hp]
  refine ⟨by rw [hshape], ?_, socket_connect_conn_mem host port o a rest hrcv
    hsnd hdns, ?_, ?_, ?_, ?_, ?_⟩
  · rw [hshape]
    simp only [List.countP_append, sockLoop_countP_conn, connLoop_countP_conn,
      hifW isConnEv rfl]
    simp [List.countP_cons, isConnEv]
  · rw [hshape]
    simp
  · rw [hshape]
    simp
  · obtain ⟨l, hl⟩ := connLoop_concat o.connectFails o.fdVal a
    refine ⟨sockLoop o.socketFails o.fdVal ++
      [CEvent.setRcvEv o.fdVal true, CEvent.setSndEv o.fdVal true,
        CEvent.dnsEv true] ++
      (if rest = [] then [] else [CEvent.multiWarnEv]) ++ l, ?_⟩
    rw [hshape]
    simp [hl]
  · rw [hshape]
    simp only [List.countP_append, sockLoop_countP_warn, connLoop_countP_warn,
      hifW isWarnEv rfl]
    simp [List.countP_cons, isWarnEv]
  · rw [hshape]
    simp only [List.countP_append, sockLoop_countP_sleep,
      connLoop_countP_sleep, hifW isSleepEv rfl]
    simp [List.countP_cons, isSleepEv]

/-- Witness for C4: a concrete run with one socket-creation failure and two
refused connects returns the descriptor. -/
theorem socket_connect_never_fails_witness :
    (socket_connect "src" 30002 ⟨3, 1, true, true, some [7], 2⟩).1 =
      CResult.ok 3 :=
  (socket_connect_never_fails "src" 30002 ⟨3, 1, true, true, some [7], 2⟩ 7 []
    rfl rfl rfl).1

/-- Claim C5: the configuration-class failures — DNS resolution yielding no
IPv4 address for the host (a `NULL` `gethostbyname2` result or an empty
address list) and failure to apply either the read or the write timeout —
are exactly the conditions under which `socket_connect` terminates the
process, and each of them produces an error-level log line immediately
followed by `exit(1)`. -/
theorem socket_connect_fatal_only_config (host : String) (port : Int)
    (o : ConnectOracle) :
    ((∃ c, (socket_connect host port o).1 = CResult.exited c) ↔
      (o.rcvOk = false ∨ o.sndOk = false ∨ o.dnsResult = none ∨
        o.dnsResult = some [])) ∧
    (∀ c, (socket_connect host port o).1 = CResult.exited c →
      c = 1 ∧ ∃ pre, (socket_connect host port o).2 =
        pre ++ [CEvent.errEv, CEvent.exitEv 1]) := by
  rcases o with ⟨fd, sf, rcv, snd, dns, cf⟩
  cases rcv
  · refine ⟨by simp [socket_connect], fun c hc => ?_⟩
    simp only [socket_connect, if_pos rfl] at hc ⊢
    refine ⟨by simpa using hc.symm, ⟨sockLoop sf fd ++
      [CEvent.setRcvEv fd false], by simp⟩⟩
  · cases snd
    · refine ⟨by simp [socket_connect], fun c hc => ?_⟩
      simp only [socket_connect] at hc ⊢
      refine ⟨by simpa using hc.symm, ⟨sockLoop sf fd ++
        [CEvent.setRcvEv fd true, CEvent.setSndEv fd false], by simp⟩⟩
    · rcases dns with _ | ⟨_ | ⟨a, rest⟩⟩
      · refine ⟨by simp [socket_connect], fun c hc => ?_⟩
        simp only [socket_connect] at hc ⊢
        refine ⟨by simpa using hc.symm, ⟨sockLoop sf fd ++
          [CEvent.setRcvEv fd true, CEvent.setSndEv fd true,
            CEvent.dnsEv false], by simp⟩⟩
      · refine ⟨by simp [socket_connect], fun c hc => ?_⟩
        simp only [socket_connect] at hc ⊢
        refine ⟨by simpa using hc.symm, ⟨sockLoop sf fd ++
          [CEvent.setRcvEv fd true, CEvent.setSndEv fd true,
            CEvent.dnsEv true], by simp⟩⟩
      · constructor
        · simp [socket_connect]
        · intro c hc
          simp [socket_connect] at hc

/-- Witness for C5: with a failing read-timeout configuration, the process
exits with status 1 right after an error-level log line. -/
theorem socket_connect_fatal_only_config_witness :
    1 = 1 ∧ ∃ pre,
      (socket_connect "src" 30002 ⟨3, 0, false, true, some [7], 0⟩).2 =
        pre ++ [CEvent.errEv, CEvent.exitEv 1] :=
  (socket_connect_fatal_only_config "src" 30002
    ⟨3, 0, false, true, some [7], 0⟩).2 1 rfl

/-- Claim C8: when DNS resolution yields more than one IPv4 address,
`socket_connect` logs exactly one multi-address warning and every
`connect(2)` attempt deterministically uses the first address returned by
the resolver. -/
theorem socket_connect_multi_addr (host : String) (port : Int)
    (o : ConnectOracle) (a b : Nat) (rest : List Nat)
    (hrcv : o.rcvOk = true) (hsnd : o.sndOk = true)
    (hdns : o.dnsResult = some (a :: b :: rest)) :
    List.countP isMultiWarnEv (socket_connect host port o).2 = 1 ∧
    ∀ fd' a' ok, CEvent.connEv fd' a' ok ∈ (socket_connect host port o).2 →
      a' = a := by
  constructor
  · rw [socket_connect_success_shape host port o a (b :: rest) hrcv hsnd hdns]
    simp only [List.countP_append, sockLoop_countP_multi,
      connLoop_countP_multi]
    simp [List.countP_cons, isMultiWarnEv]
  · intro fd' a' ok h
    exact (socket_connect_conn_mem host port o a (b :: rest) hrcv hsnd hdns
      fd' a' ok h).2

/-- Witness for C8: a host resolving to the two addresses 7 and 8 produces
exactly one multi-address warning. -/
theorem socket_connect_multi_addr_witness :
    List.countP isMultiWarnEv
      (socket_connect "src" 30002 ⟨3, 0, true, true, some [7, 8], 1⟩).2 = 1 :=
  (socket_connect_multi_addr "src" 30002 ⟨3, 0, true, true, some [7, 8], 1⟩
    7 8 [] rfl rfl rfl).1

/-! ## Argument-handling theorems -/

/-- `strtoul(s, NULL, 10)` yields 0 whenever `s` contains no decimal digit at
the expected position. -/
theorem strtoul10_of_no_digits (s : String) (h : strtoulDigits s = []) :
    strtoul10 s = 0 := by
  unfold strtoul10
  rw [h]
  simp [digitsVal, ULONG_MAX]

/-- Claim C9: `-h` and `-v` print their output and exit with status 0 without
entering the relay loop; a missing `SRC_HOST` or `DST_HOST` positional
argument, or an unrecognized flag, prints the usage text plus one
error-level log line and exits with status 2 without entering the relay
loop. -/
theorem args_contract (c : Char) (hc : c ∉ ['h', 'v', 'l', 's', 'd'])
    (tl2 : List Char) (rest : List String) (srcH dstH : Option String)
    (sp dp : Int) (l : Bool) (s : String) :
    parseArgs (String.mk ('-' :: 'h' :: tl2) :: rest) none srcH dstH sp dp l =
      (MainOutcome.helpOut, [MainEv.printHelpEv]) ∧
    parseArgs (String.mk ('-' :: 'v' :: tl2) :: rest) none srcH dstH sp dp l =
      (MainOutcome.versionOut, [MainEv.printVersionEv]) ∧
    parseArgs [] none none dstH sp dp l =
      (MainOutcome.usageError, [MainEv.printUsageEv, MainEv.logErrEv]) ∧
    parseArgs [] none (some s) none sp dp l =
      (MainOutcome.usageError, [MainEv.printUsageEv, MainEv.logErrEv]) ∧
    parseArgs (String.mk ('-' :: c :: tl2) :: rest) none srcH dstH sp dp l =
      (MainOutcome.usageError, [MainEv.printUsageEv, MainEv.logErrEv]) ∧
    exitCodeOf MainOutcome.helpOut = some 0 ∧
    exitCodeOf MainOutcome.versionOut = some 0 ∧
    exitCodeOf MainOutcome.usageError = some 2 ∧
    entersRelay MainOutcome.helpOut = false ∧
    entersRelay MainOutcome.versionOut = false ∧
    entersRelay MainOutcome.usageError = false := by
  simp only [List.mem_cons, List.not_mem_nil, or_false, not_or] at hc
  obtain ⟨hch, hcv, hcl, hcs, hcd⟩ := hc
  have ha : argKind (String.mk ('-' :: c :: tl2)) = some (some c) := rfl
  refine ⟨rfl, rfl, rfl, rfl, ?_, rfl, rfl, rfl, rfl, rfl, rfl⟩
  simp [parseArgs, ha, hch, hcv, hcl, hcs, hcd]

/-- Witness for C9: the unrecognized flag `-x` with no further arguments
prints usage, logs one error and yields the status-2 outcome. -/
theorem args_contract_witness :
    parseArgs [String.mk ['-', 'x']] none none none 30002 30001 false =
      (MainOutcome.usageError, [MainEv.printUsageEv, MainEv.logErrEv]) :=
  (args_contract 'x' (by decide) [] [] none none 30002 30001 false
    "s").2.2.2.2.1

/-- Claim C10: a `-s` or `-d` `PORT` value — attached or in the next
argument — that is not a valid decimal number is silently parsed as 0
(`strtoul` with no error checking) and the program proceeds into the relay
loop with that port 0 rather than reporting an argument error with exit
status 2; port values are never validated against any range, so any port
string at all still reaches the relay loop, for either flag and either
form. -/
theorem port_strtoul_no_validation (s h1 h2 : String) (c : Char)
    (cs : List Char) (hnd : strtoulDigits s = [])
    (hnd2 : strtoulDigits (String.mk (c :: cs)) = [])
    (hp1 : argKind h1 = none) (hp2 : argKind h2 = none) :
    mainModel [String.mk ['-', 's'], s, h1, h2] =
      (MainOutcome.runLoopOut h1 0 h2 30001 false, []) ∧
    mainModel [String.mk ['-', 'd'], s, h1, h2] =
      (MainOutcome.runLoopOut h1 30002 h2 0 false, []) ∧
    mainModel [String.mk ('-' :: 's' :: c :: cs), h1, h2] =
      (MainOutcome.runLoopOut h1 0 h2 30001 false, []) ∧
    mainModel [String.mk ('-' :: 'd' :: c :: cs), h1, h2] =
      (MainOutcome.runLoopOut h1 30002 h2 0 false, []) ∧
    exitCodeOf (MainOutcome.runLoopOut h1 0 h2 30001 false) ≠ some 2 ∧
    exitCodeOf (MainOutcome.runLoopOut h1 30002 h2 0 false) ≠ some 2 ∧
    entersRelay (MainOutcome.runLoopOut h1 0 h2 30001 false) = true ∧
    entersRelay (MainOutcome.runLoopOut h1 30002 h2 0 false) = true ∧
    (∀ s' : String, ∃ p : Int,
      mainModel [String.mk ['-', 's'], s', h1, h2] =
        (MainOutcome.runLoopOut h1 p h2 30001 false, [])) ∧
    (∀ s' : String, ∃ p : Int,
      mainModel [String.mk ['-', 'd'], s', h1, h2] =
        (MainOutcome.runLoopOut h1 30002 h2 p false, [])) ∧
    (∀ c' : Char, ∀ cs' : List Char, ∃ p : Int,
      mainModel [String.mk ('-' :: 's' :: c' :: cs'), h1, h2] =
        (MainOutcome.runLoopOut h1 p h2 30001 false, [])) ∧
    (∀ c' : Char, ∀ cs' : List Char, ∃ p : Int,
      mainModel [String.mk ('-' :: 'd' :: c' :: cs'), h1, h2] =
        (MainOutcome.runLoopOut h1 30002 h2 p false, [])) := by
  have keyS : ∀ s' : String,
      mainModel [String.mk ['-', 's'], s', h1, h2] =
        (MainOutcome.runLoopOut h1 (ulToInt (strtoul10 s')) h2 30001 false,
          []) := by
    intro s'
    have ha : argKind (String.mk ['-', 's']) = some (some 's') := rfl
    have hav : attachedVal (String.mk ['-', 's']) = [] := rfl
    simp [mainModel, parseArgs, ha, hav, hp1, hp2]
  have keyD : ∀ s' : String,
      mainModel [String.mk ['-', 'd'], s', h1, h2] =
        (MainOutcome.runLoopOut h1 30002 h2 (ulToInt (strtoul10 s')) false,
          []) := by
    intro s'
    have ha : argKind (String.mk ['-', 'd']) = some (some 'd') := rfl
    have hav : attachedVal (String.mk ['-', 'd']) = [] := rfl
    simp [mainModel, parseArgs, ha, hav, hp1, hp2]
  have keySA : ∀ c' : Char, ∀ cs' : List Char,
      mainModel [String.mk ('-' :: 's' :: c' :: cs'), h1, h2] =
        (MainOutcome.runLoopOut h1
          (ulToInt (strtoul10 (String.mk (c' :: cs')))) h2 30001 false,
          []) := by
    intro c' cs'
    have ha : argKind (String.mk ('-' :: 's' :: c' :: cs')) =
      some (some 's') := rfl
    have hav : attachedVal (String.mk ('-' :: 's' :: c' :: cs')) =
      c' :: cs' := rfl
    simp [mainModel, parseArgs, ha, hav, hp1, hp2]
  have keyDA : ∀ c' : Char, ∀ cs' : List Char,
      mainModel [String.mk ('-' :: 'd' :: c' :: cs'), h1, h2] =
        (MainOutcome.runLoopOut h1 30002 h2
          (ulToInt (strtoul10 (String.mk (c' :: cs')))) false, []) := by
    intro c' cs'
    have ha : argKind (String.mk ('-' :: 'd' :: c' :: cs')) =
      some (some 'd') := rfl
    have hav : attachedVal (String.mk ('-' :: 'd' :: c' :: cs')) =
      c' :: cs' := rfl
    simp [mainModel, parseArgs, ha, hav, hp1, hp2]
  have hz : ulToInt (strtoul10 s) = 0 := by
    rw [strtoul10_of_no_digits s hnd]
    rfl
  have hz2 : ulToInt (strtoul10 (String.mk (c :: cs))) = 0 := by
    rw [strtoul10_of_no_digits (String.mk (c :: cs)) hnd2]
    rfl
  refine ⟨?_, ?_, ?_, ?_, by simp [exitCodeOf], by simp [exitCodeOf], rfl,
    rfl, fun s' => ⟨_, keyS s'⟩, fun s' => ⟨_, keyD s'⟩,
    fun c' cs' => ⟨_, keySA c' cs'⟩, fun c' cs' => ⟨_, keyDA c' cs'⟩⟩
  · rw [keyS s, hz]
  · rw [keyD s, hz]
  · rw [keySA c cs, hz2]
  · rw [keyDA c cs, hz2]

/-- Witness for C10: `-s abc`, `-d abc`, `-sabc` and `-dabc` all parse the
port as 0 and still reach the relay loop with the two hosts; this witness
checks the attached `-d` form. -/
theorem port_strtoul_no_validation_witness :
    mainModel [String.mk ['-', 'd', 'a', 'b', 'c'], String.mk ['x'],
        String.mk ['y']] =
      (MainOutcome.runLoopOut (String.mk ['x']) 30002 (String.mk ['y']) 0
        false, []) :=
  (port_strtoul_no_validation (String.mk ['a', 'b', 'c']) (String.mk ['x'])
    (String.mk ['y']) 'a' ['b', 'c'] (by decide) (by decide) (by decide)
    (by decide)).2.2.2.1
